import Mathlib

/-!
Shallow embedding of `src/kernel/src/fs/file.rs` (per-open-instance file
descriptions of the kernel's VFS): the `File` trait defaults, the
`RegularFile`, `DirFile` and `CharacterFile` variants, and the
interface-level `read_all` drain.

Conventions of the embedding:
* `SyscallResult<T>` becomes `Except Errno T`.
* Stateful methods take the receiver and return the result paired with the
  updated receiver; locks disappear (each method is one critical section).
* A Rust `.unwrap()` on the optional inode reference is a panic branch; a
  method that contains one returns `Option (...)`, with `none` standing for
  the panic.
* `isize` values are `Int`; `isize::checked_add` is modelled explicitly with
  the two's-complement 64-bit bounds.  The unchecked `*pos += count` updates
  are modelled as exact `Int` addition (no claim depends on their wrap).
* The inode layer (`crate::fs::inode`, outside the shown source) is an
  abstract record of behaviours; `Arc<dyn Inode>` identity is an `id : Nat`.
-/

/-- POSIX-style error kinds used by `file.rs` (`crate::result::Errno`);
`other` stands for every further kernel errno value. -/
inductive Errno where
  | EINVAL
  | EOVERFLOW
  | ENOENT
  | EOPNOTSUPP
  | ENOTTY
  | ENOTDIR
  | ENOTSOCK
  | EISDIR
  | other (code : Nat)
  deriving DecidableEq, Repr

/-- Smallest `isize` value (64-bit target). -/
def isizeMin : Int := -(2 ^ 63)

/-- Largest `isize` value (64-bit target). -/
def isizeMax : Int := 2 ^ 63 - 1

/-- `isize::checked_add`: the exact sum when it is representable, `none` on
overflow. -/
def checked_add (a b : Int) : Option Int :=
  if isizeMin ≤ a + b ∧ a + b ≤ isizeMax then some (a + b) else none

/-- Abstract model of `Arc<dyn Inode>` as consumed by `file.rs`: an identity
plus the behaviours of the inode interface.  `parentUpgrade` is the combined
result of `metadata().parent.clone().and_then(|p| p.upgrade())`; `readFn` and
`writeFn` take the buffer length and the offset and yield the transferred
count; `lookup_idx` yields the child inode identity. -/
structure Inode where
  id : Nat
  unlinked : Bool
  size : Int
  parentUpgrade : Option Nat
  readFn : Nat → Int → Except Errno Int
  writeFn : Nat → Int → Except Errno Int
  truncateFn : Int → Except Errno Unit
  syncFn : Except Errno Unit
  ioctlFn : Nat → Nat → Nat → Nat → Nat → Except Errno Int
  lookup_idx : Nat → Except Errno Nat

/-- `FileMeta`: the optional backing inode and the open flags (the flags value
itself is opaque to every claim, kept as a `Nat` bit set). -/
structure FileMeta where
  inode : Option Inode
  flags : Nat

/-- The `Seek` descriptor of `file.rs` (`Set`/`Cur`/`End`, each with a signed
byte offset). -/
inductive Seek where
  | set (offset : Int)
  | cur (offset : Int)
  | endOf (offset : Int)

/-- Default body of `File::read`. -/
def File.read_default : Except Errno Int := .error .EOPNOTSUPP

/-- Default body of `File::write`. -/
def File.write_default : Except Errno Int := .error .EOPNOTSUPP

/-- Default body of `File::ioctl`. -/
def File.ioctl_default : Except Errno Int := .error .ENOTTY

/-- Default body of `File::readdir`. -/
def File.readdir_default : Except Errno (Option (Nat × Nat)) := .error .ENOTDIR

/-- `RegularFile`: metadata plus the signed cursor guarded by `pos`'s lock
(the `prw_lock` serialises `pread`/`pwrite` sequences and has no state). -/
structure RegularFile where
  metadata : FileMeta
  pos : Int

/-- `RegularFile::seek`, translated clause by clause.  `none` is the panic of
the `End` branch's `.unwrap()` when no inode is attached. -/
def RegularFile.seek (f : RegularFile) (s : Seek) :
    Option (Except Errno Int × RegularFile) :=
  match s with
  | .set offset =>
    if offset < 0 then some (.error .EINVAL, f)
    else some (.ok offset, { f with pos := offset })
  | .cur offset =>
    match checked_add f.pos offset with
    | some newPos => some (.ok newPos, { f with pos := newPos })
    | none => some (.error (if offset < 0 then .EINVAL else .EOVERFLOW), f)
  | .endOf offset =>
    match f.metadata.inode with
    | none => none
    | some inode =>
      match checked_add inode.size offset with
      | some newPos => some (.ok newPos, { f with pos := newPos })
      | none => some (.error (if offset < 0 then .EINVAL else .EOVERFLOW), f)

/-- `RegularFile::read`: delegate to the inode at the cursor, advance the
cursor by the transferred count. -/
def RegularFile.read (f : RegularFile) (bufLen : Nat) :
    Option (Except Errno Int × RegularFile) :=
  match f.metadata.inode with
  | none => none
  | some inode =>
    match inode.readFn bufLen f.pos with
    | .error e => some (.error e, f)
    | .ok count => some (.ok count, { f with pos := f.pos + count })

/-- `RegularFile::write`: delegate to the inode at the cursor, advance the
cursor by the transferred count. -/
def RegularFile.write (f : RegularFile) (bufLen : Nat) :
    Option (Except Errno Int × RegularFile) :=
  match f.metadata.inode with
  | none => none
  | some inode =>
    match inode.writeFn bufLen f.pos with
    | .error e => some (.error e, f)
    | .ok count => some (.ok count, { f with pos := f.pos + count })

/-- `RegularFile::truncate`: delegate to the inode; the seek pointer is not
modified. -/
def RegularFile.truncate (f : RegularFile) (size : Int) :
    Option (Except Errno Unit × RegularFile) :=
  match f.metadata.inode with
  | none => none
  | some inode =>
    match inode.truncateFn size with
    | .error e => some (.error e, f)
    | .ok _ => some (.ok (), f)

/-- `RegularFile::sync`: delegate to the inode. -/
def RegularFile.sync (f : RegularFile) :
    Option (Except Errno Unit × RegularFile) :=
  match f.metadata.inode with
  | none => none
  | some inode =>
    match inode.syncFn with
    | .error e => some (.error e, f)
    | .ok _ => some (.ok (), f)

/-- `RegularFile` does not override `File::ioctl`; dispatch lands on the
trait default. -/
def RegularFile.ioctl (_f : RegularFile)
    (_request _a2 _a3 _a4 _a5 : Nat) : Except Errno Int :=
  File.ioctl_default

/-- `RegularFile::pread`: capture the cursor with `seek(Cur(0))?`, move with
`seek(Set(offset))?`, read, then `seek(Set(old))?` — each `?` propagates,
including the one on the restoring seek. -/
def RegularFile.pread (f : RegularFile) (bufLen : Nat) (offset : Int) :
    Option (Except Errno Int × RegularFile) :=
  match f.seek (.cur 0) with
  | none => none
  | some (.error e, f1) => some (.error e, f1)
  | some (.ok old, f1) =>
    match f1.seek (.set offset) with
    | none => none
    | some (.error e, f2) => some (.error e, f2)
    | some (.ok _, f2) =>
      match f2.read bufLen with
      | none => none
      | some (ret, f3) =>
        match f3.seek (.set old) with
        | none => none
        | some (.error e, f4) => some (.error e, f4)
        | some (.ok _, f4) => some (ret, f4)

/-- `RegularFile::pwrite`: same save/seek/write/restore shape as `pread`. -/
def RegularFile.pwrite (f : RegularFile) (bufLen : Nat) (offset : Int) :
    Option (Except Errno Int × RegularFile) :=
  match f.seek (.cur 0) with
  | none => none
  | some (.error e, f1) => some (.error e, f1)
  | some (.ok old, f1) =>
    match f1.seek (.set offset) with
    | none => none
    | some (.error e, f2) => some (.error e, f2)
    | some (.ok _, f2) =>
      match f2.write bufLen with
      | none => none
      | some (ret, f3) =>
        match f3.seek (.set old) with
        | none => none
        | some (.error e, f4) => some (.error e, f4)
        | some (.ok _, f4) => some (ret, f4)

/-- `CharacterFile`: metadata plus its own signed cursor. -/
structure CharacterFile where
  metadata : FileMeta
  pos : Int

/-- `CharacterFile::read`: delegate to the inode at the cursor, advance the
cursor by the transferred count. -/
def CharacterFile.read (f : CharacterFile) (bufLen : Nat) :
    Option (Except Errno Int × CharacterFile) :=
  match f.metadata.inode with
  | none => none
  | some inode =>
    match inode.readFn bufLen f.pos with
    | .error e => some (.error e, f)
    | .ok count => some (.ok count, { f with pos := f.pos + count })

/-- `CharacterFile::write`: delegate to the inode at the cursor, advance the
cursor by the transferred count. -/
def CharacterFile.write (f : CharacterFile) (bufLen : Nat) :
    Option (Except Errno Int × CharacterFile) :=
  match f.metadata.inode with
  | none => none
  | some inode =>
    match inode.writeFn bufLen f.pos with
    | .error e => some (.error e, f)
    | .ok count => some (.ok count, { f with pos := f.pos + count })

/-- `CharacterFile::ioctl`: forward the request and the four arguments to the
inode, never touching the cursor. -/
def CharacterFile.ioctl (f : CharacterFile)
    (request value arg2 arg3 arg4 : Nat) :
    Option (Except Errno Int × CharacterFile) :=
  match f.metadata.inode with
  | none => none
  | some inode => some (inode.ioctlFn request value arg2 arg3 arg4, f)

/-- `DirFile`: metadata plus the unsigned enumeration cursor (the `Audit`
context is opaque and threaded only into `lookup_idx`, so it is folded into
the inode's `lookup_idx` behaviour). -/
structure DirFile where
  metadata : FileMeta
  pos : Nat

/-- `DirFile::readdir`, translated clause by clause: reject unlinked inodes
with `ENOENT`; cursor 0 is the directory itself, cursor 1 the upgraded
parent (falling back to the directory itself), cursor `k+2` the `k`-th
child via `lookup_idx`, whose `ENOENT` turns into `Ok(None)` without
advancing; on success the cursor advances by one and the pre-advance index
is returned with the resolved inode identity. -/
def DirFile.readdir (f : DirFile) :
    Option (Except Errno (Option (Nat × Nat)) × DirFile) :=
  match f.metadata.inode with
  | none => none
  | some inode =>
    if inode.unlinked then some (.error .ENOENT, f)
    else
      let resolved : Except Errno (Option Nat) :=
        match f.pos with
        | 0 => .ok (some inode.id)
        | 1 => .ok (some (inode.parentUpgrade.getD inode.id))
        | k + 2 =>
          match inode.lookup_idx k with
          | .ok child => .ok (some child)
          | .error .ENOENT => .ok none
          | .error e => .error e
      match resolved with
      | .error e => some (.error e, f)
      | .ok none => some (.ok none, f)
      | .ok (some child) =>
        some (.ok (some (f.pos, child)), { f with pos := f.pos + 1 })

/-- `DirFile::read` override: always `EISDIR`. -/
def DirFile.read (_f : DirFile) (_bufLen : Nat) : Except Errno Int :=
  .error .EISDIR

/-- `DirFile` does not override `File::ioctl`; dispatch lands on the trait
default. -/
def DirFile.ioctl (_f : DirFile)
    (_request _a2 _a3 _a4 _a5 : Nat) : Except Errno Int :=
  File.ioctl_default

/-- Modelled from the spec: `PAGE_SIZE` comes from `crate::arch`, which is
not among the shown sources; the spec fixes the drain's chunk buffer at one
memory page. -/
def PAGE_SIZE : Nat := 4096

/-- The `File` trait object as `read_all` sees it: `seek` and `read`
behaviours over an abstract state.  A successful `read` yields the bytes
placed into the buffer's prefix (their number is the returned count). -/
structure AbsFile (σ : Type) where
  seek : σ → Seek → Except Errno Int × σ
  read : σ → Nat → Except Errno (List Nat) × σ

/-- The loop of `<dyn File>::read_all`, fuel-indexed because the source loop
has no intrinsic bound (`none` = fuel exhausted): read a page-sized chunk,
stop on a zero-length read, append the bytes actually read and continue. -/
def read_all_loop {σ : Type} (F : AbsFile σ) (s : σ) (acc : List Nat) :
    Nat → Option (Except Errno (List Nat) × σ)
  | 0 => none
  | fuel + 1 =>
    match F.read s PAGE_SIZE with
    | (.error e, s1) => some (.error e, s1)
    | (.ok bytes, s1) =>
      if bytes.length = 0 then some (.ok acc, s1)
      else read_all_loop F s1 (acc ++ bytes) fuel

/-- `<dyn File>::read_all`: seek to absolute position 0 (propagating a
failure), then run the drain loop on an empty accumulator. -/
def read_all {σ : Type} (F : AbsFile σ) (s : σ) (fuel : Nat) :
    Option (Except Errno (List Nat) × σ) :=
  match F.seek s (.set 0) with
  | (.error e, s1) => some (.error e, s1)
  | (.ok _, s1) => read_all_loop F s1 [] fuel

/-- A concrete inode behaviour for the closed evaluations below: id 7, not
unlinked, size 100, live parent 3, reads and writes transfer 0 bytes,
truncate and sync succeed, ioctl answers 42, child lookup finds nothing. -/
def exInode : Inode where
  id := 7
  unlinked := false
  size := 100
  parentUpgrade := some 3
  readFn := fun _ _ => .ok 0
  writeFn := fun _ _ => .ok 0
  truncateFn := fun _ => .ok ()
  syncFn := .ok ()
  ioctlFn := fun _ _ _ _ _ => .ok 42
  lookup_idx := fun _ => .error .ENOENT

/-- Metadata with `exInode` attached and empty flags. -/
def exMeta : FileMeta := { inode := some exInode, flags := 0 }

/-- A freshly opened regular file over `exInode` (cursor 0). -/
def exReg : RegularFile := { metadata := exMeta, pos := 0 }

/-- A freshly opened directory file over `exInode` (cursor 0). -/
def exDir : DirFile := { metadata := exMeta, pos := 0 }

/-- A freshly opened character file over `exInode` (cursor 0). -/
def exChar : CharacterFile := { metadata := exMeta, pos := 0 }

/-- C1: evaluation of `RegularFile::seek` at the failing input.  On a fresh
regular file (cursor 0) with an inode attached, `seek(Cur(-1))` succeeds and
stores the negative cursor `-1`: the checked addition `0 + (-1)` does not
overflow, and no branch of `Cur`/`End` checks the sign of the result, so the
never-negative invariant claimed for successful seeks fails here. -/
theorem seek_cur_stores_negative :
    RegularFile.seek exReg (.cur (-1)) =
      some (.ok (-1), { metadata := exMeta, pos := -1 }) := by
  simp [RegularFile.seek, exReg, checked_add, isizeMin, isizeMax]

/-- C3: `RegularFile::seek` arithmetic.  `Set` fails `EINVAL` exactly on a
negative offset and otherwise stores and returns the offset; `Cur` and `End`
use checked addition on the current position resp. the inode size, failing
`EINVAL` on overflow with a negative offset and `EOVERFLOW` on overflow with
a non-negative one; every success stores exactly the returned value and
every failure leaves the file state unchanged. -/
theorem regular_seek_arithmetic_spec (f : RegularFile) (i : Inode)
    (offset : Int) (hin : f.metadata.inode = some i) :
    ((offset < 0 → f.seek (.set offset) = some (.error .EINVAL, f)) ∧
      (0 ≤ offset →
        f.seek (.set offset) = some (.ok offset, { f with pos := offset }))) ∧
    ((∀ n, checked_add f.pos offset = some n →
        f.seek (.cur offset) = some (.ok n, { f with pos := n })) ∧
      (checked_add f.pos offset = none → offset < 0 →
        f.seek (.cur offset) = some (.error .EINVAL, f)) ∧
      (checked_add f.pos offset = none → 0 ≤ offset →
        f.seek (.cur offset) = some (.error .EOVERFLOW, f))) ∧
    ((∀ n, checked_add i.size offset = some n →
        f.seek (.endOf offset) = some (.ok n, { f with pos := n })) ∧
      (checked_add i.size offset = none → offset < 0 →
        f.seek (.endOf offset) = some (.error .EINVAL, f)) ∧
      (checked_add i.size offset = none → 0 ≤ offset →
        f.seek (.endOf offset) = some (.error .EOVERFLOW, f))) := by
  refine ⟨⟨fun h => ?_, fun h => ?_⟩,
    ⟨fun n hn => ?_, fun hn h => ?_, fun hn h => ?_⟩,
    ⟨fun n hn => ?_, fun hn h => ?_, fun hn h => ?_⟩⟩ <;>
    simp [RegularFile.seek, hin, *, not_lt.mpr]

/-- C5: `DirFile::readdir` on an unlinked inode fails `ENOENT` for every
cursor value, before the cursor is inspected or advanced: result is the
error and the state is returned unchanged. -/
theorem dir_readdir_unlinked_rejects (f : DirFile) (i : Inode)
    (hin : f.metadata.inode = some i) (hul : i.unlinked = true) :
    f.readdir = some (.error .ENOENT, f) := by
  simp [DirFile.readdir, hin, hul]

/-- `exInode` marked unlinked. -/
def exInodeUnlinked : Inode := { exInode with unlinked := true }

/-- A directory file over the unlinked inode, cursor already at 5. -/
def exDirUnlinked : DirFile :=
  { metadata := { inode := some exInodeUnlinked, flags := 0 }, pos := 5 }

/-- C5 witness: the unlinked rejection evaluated on a concrete directory
file with cursor 5. -/
theorem dir_readdir_unlinked_rejects_witness :
    DirFile.readdir exDirUnlinked = some (.error .ENOENT, exDirUnlinked) :=
  dir_readdir_unlinked_rejects exDirUnlinked exInodeUnlinked rfl rfl

/-- C3 witness: the `Set` success clause evaluated on the fresh regular
file at offset 5. -/
theorem regular_seek_arithmetic_spec_witness :
    RegularFile.seek exReg (.set 5) =
      some (.ok 5, { metadata := exMeta, pos := 5 }) :=
  (regular_seek_arithmetic_spec exReg exInode 5 rfl).1.2 (by norm_num)

/-- C4: the `DirFile::readdir` enumeration protocol on a non-unlinked inode:
cursor 0 yields the directory itself, cursor 1 the upgraded parent or the
directory itself when the weak reference is dead, cursor `k+2` the child at
index `k`; a not-found lookup becomes the non-error end-of-directory result
with the cursor untouched, any other lookup error propagates unchanged with
the cursor untouched, and every success advances the cursor by exactly one
and returns the pre-advance cursor as the entry index. -/
theorem dir_readdir_protocol_spec (f : DirFile) (i : Inode)
    (hin : f.metadata.inode = some i) (hul : i.unlinked = false) :
    (f.pos = 0 →
      f.readdir = some (.ok (some (0, i.id)), { f with pos := 1 })) ∧
    (∀ p, f.pos = 1 → i.parentUpgrade = some p →
      f.readdir = some (.ok (some (1, p)), { f with pos := 2 })) ∧
    (f.pos = 1 → i.parentUpgrade = none →
      f.readdir = some (.ok (some (1, i.id)), { f with pos := 2 })) ∧
    (∀ k child, f.pos = k + 2 → i.lookup_idx k = .ok child →
      f.readdir = some (.ok (some (k + 2, child)), { f with pos := k + 3 })) ∧
    (∀ k, f.pos = k + 2 → i.lookup_idx k = .error .ENOENT →
      f.readdir = some (.ok none, f)) ∧
    (∀ k e, f.pos = k + 2 → i.lookup_idx k = .error e → e ≠ .ENOENT →
      f.readdir = some (.error e, f)) := by
  refine ⟨fun h0 => ?_, fun p h1 hp => ?_, fun h1 hp => ?_,
    fun k child hk hl => ?_, fun k hk hl => ?_, fun k e hk hl hne => ?_⟩ <;>
    simp [DirFile.readdir, hin, hul, *]

/-- C4 witness: cursor 0 on the fresh directory over `exInode` yields the
directory's own inode identity 7 and advances the cursor to 1. -/
theorem dir_readdir_protocol_spec_witness :
    DirFile.readdir exDir = some (.ok (some (0, 7)), { exDir with pos := 1 }) :=
  (dir_readdir_protocol_spec exDir exInode rfl rfl).1 rfl

/-- C2 (amended): once the cursor capture and the seek to the requested
offset have succeeded, `pread`/`pwrite` always execute the restoring
`seek(Set(old))` — also when the read/write failed (`ret` here is an
arbitrary result) — but that restoring seek's own failure is propagated by
its `?`: when `old` is negative the call answers `EINVAL` in place of the
read/write result, and only when the restoration succeeds is the call's
result exactly the read/write result with the cursor back at `old`. -/
theorem pread_pwrite_restore_semantics (f f1 f2 f3 : RegularFile)
    (bufLen : Nat) (offset old n : Int) (ret : Except Errno Int) :
    (f.seek (.cur 0) = some (.ok old, f1) →
      f1.seek (.set offset) = some (.ok n, f2) →
      f2.read bufLen = some (ret, f3) →
      f.pread bufLen offset =
        if old < 0 then some (.error .EINVAL, f3)
        else some (ret, { f3 with pos := old })) ∧
    (f.seek (.cur 0) = some (.ok old, f1) →
      f1.seek (.set offset) = some (.ok n, f2) →
      f2.write bufLen = some (ret, f3) →
      f.pwrite bufLen offset =
        if old < 0 then some (.error .EINVAL, f3)
        else some (ret, { f3 with pos := old })) := by
  constructor <;> intro h1 h2 h3 <;>
    simp only [RegularFile.pread, RegularFile.pwrite, h1, h2, h3] <;>
    by_cases hold : old < 0 <;>
    simp [RegularFile.seek, hold]

/-- C2 witness: on the fresh regular file, `pread` at offset 5 with the
0-byte-transfer inode succeeds with the read result and restores cursor 0. -/
theorem pread_pwrite_restore_semantics_witness :
    RegularFile.pread exReg 0 5 = some (.ok 0, exReg) := by
  have h := (pread_pwrite_restore_semantics exReg exReg
      { metadata := exMeta, pos := 5 } { metadata := exMeta, pos := 5 }
      0 5 0 5 (.ok 0)).1 rfl rfl rfl
  simpa [exReg] using h

/-- A regular file over `exInode` whose cursor is already negative (state
reachable through `seek(Cur(-1))` from a fresh open, see the C1 evaluation). -/
def exRegNeg : RegularFile := { metadata := exMeta, pos := -1 }

/-- C2 counterexample: on a regular file whose captured position is `-1`,
the capture and the seek to offset 0 succeed and the read succeeds with
result 0, yet `pread` answers `EINVAL` from the restoring `seek(Set(-1))`
instead of the read's result: the restoration failure is surfaced, not
swallowed. -/
theorem pread_restore_error_surfaced_cex :
    RegularFile.pread exRegNeg 0 0 =
        some (.error .EINVAL, { metadata := exMeta, pos := 0 }) ∧
    RegularFile.read { metadata := exMeta, pos := 0 } 0 =
        some (.ok 0, { metadata := exMeta, pos := 0 }) ∧
    (Except.error Errno.EINVAL : Except Errno Int) ≠ .ok 0 := by
  refine ⟨?_, ?_, by simp⟩
  · simp [RegularFile.pread, RegularFile.seek, RegularFile.read, exRegNeg,
      exMeta, exInode, checked_add, isizeMin, isizeMax]
  · simp [RegularFile.read, exMeta, exInode]

/-- C6: the whole-file drain.  A failing initial seek propagates at once;
after a successful seek the drain is the loop on an empty accumulator; in
the loop a failing read propagates at once, a zero-byte read stops with the
accumulated buffer, and a non-empty read appends exactly the bytes actually
read and continues; on a file whose reads immediately return zero bytes,
fuel for a single read call already completes the drain with an empty
buffer. -/
theorem read_all_drain_spec {σ : Type} (F : AbsFile σ) (s s1 : σ)
    (fuel : Nat) (e : Errno) (n : Int) (acc bytes : List Nat) :
    (F.seek s (.set 0) = (.error e, s1) →
      read_all F s fuel = some (.error e, s1)) ∧
    (F.seek s (.set 0) = (.ok n, s1) →
      read_all F s fuel = read_all_loop F s1 [] fuel) ∧
    (F.read s PAGE_SIZE = (.error e, s1) →
      read_all_loop F s acc (fuel + 1) = some (.error e, s1)) ∧
    (F.read s PAGE_SIZE = (.ok [], s1) →
      read_all_loop F s acc (fuel + 1) = some (.ok acc, s1)) ∧
    (F.read s PAGE_SIZE = (.ok bytes, s1) → bytes ≠ [] →
      read_all_loop F s acc (fuel + 1) = read_all_loop F s1 (acc ++ bytes) fuel) ∧
    (∀ s2 m, F.seek s (.set 0) = (.ok m, s1) →
      F.read s1 PAGE_SIZE = (.ok [], s2) →
      read_all F s 1 = some (.ok [], s2)) := by
  refine ⟨fun h => ?_, fun h => ?_, fun h => ?_, fun h => ?_,
    fun h hne => ?_, fun s2 m h1 h2 => ?_⟩ <;>
    simp [read_all, read_all_loop, *]

/-- A file behaviour whose reads immediately return zero bytes and whose
seeks succeed in place. -/
def exAbsFile : AbsFile Unit where
  seek := fun s _ => (.ok 0, s)
  read := fun s _ => (.ok [], s)

/-- C6 witness: the drain of the zero-length behaviour finishes with the
empty buffer given fuel for exactly one read call. -/
theorem read_all_drain_spec_witness :
    read_all exAbsFile () 1 = some (.ok [], ()) :=
  (read_all_drain_spec exAbsFile () () 1 .EINVAL 0 [] []).2.2.2.2.2 () 0 rfl rfl

/-- C7 counterexample: `DirFile::read` does not keep the not-supported
default: evaluated on a concrete directory file it answers the
is-a-directory error, which is not the operation-not-supported error. -/
theorem dir_read_not_eopnotsupp_cex :
    DirFile.read exDir 1 = .error .EISDIR ∧
    DirFile.read exDir 1 ≠ .error .EOPNOTSUPP := by
  refine ⟨rfl, ?_⟩
  simp [DirFile.read]

/-- C7 (amended): the `File::read` default is the not-supported error, but
the directory variant overrides `read` as well: it returns the
is-a-directory error `EISDIR` for every directory file and buffer (the
regular and character variants override it with real reads). -/
theorem read_defaults_and_dir_read_eisdir (f : DirFile) (bufLen : Nat) :
    File.read_default = .error .EOPNOTSUPP ∧
    DirFile.read f bufLen = .error .EISDIR :=
  ⟨rfl, rfl⟩

/-- C8: `ioctl` dispatch.  The regular and directory variants keep the trait
default and fail `ENOTTY`; the character variant forwards the request and
all four arguments verbatim to the inode's `ioctl`, returns its result
unchanged, and leaves the file state (its cursor included) untouched. -/
theorem ioctl_dispatch_spec (rf : RegularFile) (df : DirFile)
    (cf : CharacterFile) (i : Inode) (hin : cf.metadata.inode = some i)
    (request a2 a3 a4 a5 : Nat) :
    rf.ioctl request a2 a3 a4 a5 = .error .ENOTTY ∧
    df.ioctl request a2 a3 a4 a5 = .error .ENOTTY ∧
    cf.ioctl request a2 a3 a4 a5 =
      some (i.ioctlFn request a2 a3 a4 a5, cf) := by
  refine ⟨rfl, rfl, ?_⟩
  simp [CharacterFile.ioctl, hin]

/-- C8 witness: the character file over `exInode` forwards an ioctl and gets
the inode's answer 42 back, state unchanged. -/
theorem ioctl_dispatch_spec_witness :
    CharacterFile.ioctl exChar 1 2 3 4 5 = some (.ok 42, exChar) :=
  (ioctl_dispatch_spec exReg exDir exChar exInode rfl 1 2 3 4 5).2.2

/-- C9: `RegularFile::truncate` is exactly the inode's truncate: the call's
result is the inode outcome (success or failure) and the open-instance
state — cursor and flags alike — is returned unchanged in either case. -/
theorem regular_truncate_frame (f : RegularFile) (i : Inode)
    (hin : f.metadata.inode = some i) (size : Int) :
    f.truncate size = some (i.truncateFn size, f) := by
  simp only [RegularFile.truncate, hin]
  cases h : i.truncateFn size with
  | error e => rfl
  | ok u => cases u; rfl

/-- C9 witness: truncating the fresh regular file to 10 bytes succeeds and
returns the instance unchanged. -/
theorem regular_truncate_frame_witness :
    RegularFile.truncate exReg 10 = some (.ok (), exReg) :=
  regular_truncate_frame exReg exInode rfl 10

/-- C10: every inode-touching override is total once the instance holds an
inode reference: with `metadata.inode` present, none of the regular-file
read/write/truncate/sync/seek (any mode, `End` included), character-device
read/write/ioctl, or directory readdir operations reaches the `.unwrap()`
panic branch (`none`). -/
theorem inode_unwrap_total (rf : RegularFile) (cf : CharacterFile)
    (df : DirFile) (hr : rf.metadata.inode.isSome = true)
    (hc : cf.metadata.inode.isSome = true)
    (hd : df.metadata.inode.isSome = true)
    (bufLen : Nat) (size : Int) (s : Seek) (req a2 a3 a4 a5 : Nat) :
    (rf.read bufLen).isSome = true ∧ (rf.write bufLen).isSome = true ∧
    (rf.truncate size).isSome = true ∧ rf.sync.isSome = true ∧
    (rf.seek s).isSome = true ∧
    (cf.read bufLen).isSome = true ∧ (cf.write bufLen).isSome = true ∧
    (cf.ioctl req a2 a3 a4 a5).isSome = true ∧
    df.readdir.isSome = true := by
  obtain ⟨ri, hri⟩ := Option.isSome_iff_exists.mp hr
  obtain ⟨ci, hci⟩ := Option.isSome_iff_exists.mp hc
  obtain ⟨di, hdi⟩ := Option.isSome_iff_exists.mp hd
  refine ⟨?_, ?_, ?_, ?_, ?_, ?_, ?_, ?_, ?_⟩
  · simp only [RegularFile.read, hri]
    cases ri.readFn bufLen rf.pos <;> simp
  · simp only [RegularFile.write, hri]
    cases ri.writeFn bufLen rf.pos <;> simp
  · simp only [RegularFile.truncate, hri]
    cases ri.truncateFn size <;> simp
  · simp only [RegularFile.sync, hri]
    cases ri.syncFn <;> simp
  · cases s with
    | set o =>
      simp only [RegularFile.seek]
      split <;> simp
    | cur o =>
      simp only [RegularFile.seek]
      cases checked_add rf.pos o <;> simp
    | endOf o =>
      simp only [RegularFile.seek, hri]
      cases checked_add ri.size o <;> simp
  · simp only [CharacterFile.read, hci]
    cases ci.readFn bufLen cf.pos <;> simp
  · simp only [CharacterFile.write, hci]
    cases ci.writeFn bufLen cf.pos <;> simp
  · simp [CharacterFile.ioctl, hci]
  · simp only [DirFile.readdir, hdi]
    repeat' split
    all_goals simp

/-- C10 witness: the `End`-mode seek (the branch whose unwrap consults the
inode) evaluated on the fresh regular file does not panic. -/
theorem inode_unwrap_total_witness :
    (RegularFile.seek exReg (.endOf 0)).isSome = true :=
  (inode_unwrap_total exReg exChar exDir rfl rfl rfl
    0 0 (.endOf 0) 0 0 0 0 0).2.2.2.2.1
